import Mathlib

/-! Hoymiles radio library: grid-profile tables, command queue, timeout tracker.

A shallow embedding of

* `lib/Hoymiles/src/parser/GridProfileParser.cpp`: the fixed-size associative
  array `map` with its linear-scan `at`, and the three static tables
  `profileTypes`, `profileSection` and `itemDefinitions`;
* `lib/Hoymiles/src/HoymilesRadio.h`: `ThreadSafeQueue` and `TimeoutHelper`;
* `lib/Hoymiles/src/HoymilesRadio_CMT.h`: the channel-width constants.

Bytes (`uint8_t`) and 32-bit words (`uint32_t`) are natural numbers; where the
C++ arithmetic can wrap, the reduction modulo `2 ^ 32` is written out.  The
source's `string` (a pointer with a length, compared bytewise) is `String`.
A thrown `std::out_of_range` is the `Except.error` carrying its message.
-/

namespace GridProfileParser

/-! ## `map<Key, Value, N>` -/

/-- The member `map::at`: scan `items_` front to back and return the value of
the first pair whose key equals `key`; when the scan runs off the end, throw
`std::out_of_range("Key not found")`. -/
def map_at {Key Value : Type} [DecidableEq Key] :
    List (Key × Value) → Key → Except String Value
  | [], _ => Except.error "Key not found"
  | item :: rest, key => if item.1 = key then Except.ok item.2 else map_at rest key

/-! ## Profile types -/

/-- The struct `ProfileType_t`. -/
structure ProfileType_t where
  lIdx : Nat
  hIdx : Nat
  Name : String
  deriving DecidableEq, Repr

/-- The array `profileTypes` (10 rows). -/
def profileTypes : List ProfileType_t :=
  [ ⟨0x02, 0x00, "US - NA_IEEE1547_240V"⟩,
    ⟨0x03, 0x00, "DE - DE_VDE4105_2018"⟩,
    ⟨0x03, 0x01, "XX - unknown"⟩,
    ⟨0x0a, 0x00, "XX - EN 50549-1:2019"⟩,
    ⟨0x0c, 0x00, "AT - AT_TOR_Erzeuger_default"⟩,
    ⟨0x0d, 0x04, "FR -"⟩,
    ⟨0x10, 0x00, "ES - ES_RD1699"⟩,
    ⟨0x12, 0x00, "PL - EU_EN50438"⟩,
    ⟨0x29, 0x00, "NL - NL_NEN-EN50549-1_2019"⟩,
    ⟨0x37, 0x00, "CH - CH_NA EEA-NE7-CH2020"⟩ ]

/-! ## Profile sections -/

/-- The table `profileSection`, a `map<uint8_t, string, 12>`. -/
def profileSection : List (Nat × String) :=
  [ (0x00, "Voltage (H/LVRT)"),
    (0x10, "Frequency (H/LFRT)"),
    (0x20, "Island Detection (ID)"),
    (0x30, "Reconnection (RT)"),
    (0x40, "Ramp Rates (RR)"),
    (0x50, "Frequency Watt (FW)"),
    (0x60, "Volt Watt (VW)"),
    (0x70, "Active Power Control (APC)"),
    (0x80, "Volt Var (VV)"),
    (0x90, "Specified Power Factor (SPF)"),
    (0xA0, "Reactive Power Control (RPC)"),
    (0xB0, "Watt Power Factor (WPF)") ]

/-! ## Item definitions -/

/-- The struct `GridProfileItemDefinition_t`. -/
structure GridProfileItemDefinition_t where
  Name : String
  Unit : String
  Divider : Nat
  deriving DecidableEq, Repr

/-- The constructor function `make_value`. -/
def make_value (Name Unit : String) (divisor : Nat) : GridProfileItemDefinition_t :=
  { Name := Name, Unit := Unit, Divider := divisor }

/-- The table `itemDefinitions`, a `map<uint8_t, GridProfileItemDefinition_t, 0x42>`. -/
def itemDefinitions : List (Nat × GridProfileItemDefinition_t) :=
  [ (0x01, make_value "Nominale Voltage (NV)" "V" 10),
    (0x02, make_value "Low Voltage 1 (LV1)" "V" 10),
    (0x03, make_value "LV1 Maximum Trip Time (MTT)" "s" 10),
    (0x04, make_value "High Voltage 1 (HV1)" "V" 10),
    (0x05, make_value "HV1 Maximum Trip Time (MTT)" "s" 10),
    (0x06, make_value "Low Voltage 2 (LV2)" "V" 10),
    (0x07, make_value "LV2 Maximum Trip Time (MTT)" "s" 100),
    (0x08, make_value "High Voltage 2 (HV2)" "V" 10),
    (0x09, make_value "HV2 Maximum Trip Time (MTT)" "s" 100),
    (0x0A, make_value "10mins Average High Voltage (AHV)" "V" 10),
    (0x0B, make_value "High Voltage 3 (HV3)" "V" 10),
    (0x0C, make_value "HV3 Maximum Trip Time (MTT)" "s" 100),
    (0x0D, make_value "Nominal Frequency" "Hz" 100),
    (0x0E, make_value "Low Frequency 1 (LF1)" "Hz" 100),
    (0x0F, make_value "LF1 Maximum Trip Time (MTT)" "s" 10),
    (0x10, make_value "High Frequency 1 (HF1)" "Hz" 100),
    (0x11, make_value "HF1 Maximum Trip time (MTT)" "s" 10),
    (0x12, make_value "Low Frequency 2 (LF2)" "Hz" 100),
    (0x13, make_value "LF2 Maximum Trip Time (MTT)" "s" 10),
    (0x14, make_value "High Frequency 2 (HF2)" "Hz" 100),
    (0x15, make_value "HF2 Maximum Trip time (MTT)" "s" 10),
    (0x16, make_value "ID Function Activated" "bool" 1),
    (0x17, make_value "Reconnect Time (RT)" "s" 10),
    (0x18, make_value "Reconnect High Voltage (RHV)" "V" 10),
    (0x19, make_value "Reconnect Low Voltage (RLV)" "V" 10),
    (0x1A, make_value "Reconnect High Frequency (RHF)" "Hz" 100),
    (0x1B, make_value "Reconnect Low Frequency (RLF)" "Hz" 100),
    (0x1C, make_value "Normal Ramp up Rate (RUR_NM)" "% Rated/s" 100),
    (0x1D, make_value "Soft Start Ramp up Rate (RUR_SS)" "% Rated/s" 100),
    (0x1E, make_value "FW Function Activated" "bool" 1),
    (0x1F, make_value "Start of Frequency Watt Droop (Fstart)" "Hz" 100),
    (0x20, make_value "FW Droop Slope (Kpower_Freq)" "%Pn/Hz" 10),
    (0x21, make_value "Recovery Ramp Rate (RRR)" "%Pn/s" 100),
    (0x22, make_value "Recovery High Frequency (RVHF)" "Hz" 100),
    (0x23, make_value "Recovery Low Frequency (RVLF)" "Hz" 100),
    (0x24, make_value "VW Function Activated" "bool" 1),
    (0x25, make_value "Start of Voltage Watt Droop (Vstart)" "V" 10),
    (0x26, make_value "End of Voltage Watt Droop (Vend)" "V" 10),
    (0x27, make_value "Droop Slope (Kpower_Volt)" "%Pn/V" 100),
    (0x28, make_value "APC Function Activated" "bool" 1),
    (0x29, make_value "Power Ramp Rate (PRR)" "%Pn/s" 100),
    (0x2A, make_value "VV Function Activated" "bool" 1),
    (0x2B, make_value "Voltage Set Point V1" "V" 10),
    (0x2C, make_value "Reactive Set Point Q1" "%Pn" 10),
    (0x2D, make_value "Voltage Set Point V2" "V" 10),
    (0x2E, make_value "Voltage Set Point V3" "V" 10),
    (0x2F, make_value "Voltage Set Point V4" "V" 10),
    (0x30, make_value "Reactive Set Point Q4" "%Pn" 10),
    (0x31, make_value "VV Setting Time (Tr)" "s" 10),
    (0x32, make_value "SPF Function Activated" "bool" 1),
    (0x33, make_value "Power Factor (PF)" "" 100),
    (0x34, make_value "RPC Function Activated" "bool" 1),
    (0x35, make_value "Reactive Power (VAR)" "%Sn" 1),
    (0x36, make_value "WPF Function Activated" "bool" 1),
    (0x37, make_value "Start of Power of WPF (Pstart)" "%Pn" 10),
    (0x38, make_value "Power Factor at Rated Power (PFRP)" "" 100),
    (0x39, make_value "Low Voltage 3 (LV3)" "V" 10),
    (0x3A, make_value "LV3 Maximum Trip Time (MTT)" "s" 100),
    (0x3B, make_value "Momentary Cessation Low Voltage" "V" 10),
    (0x3C, make_value "Momentary Cessation High Voltage" "V" 10),
    (0x3D, make_value "FW Settling Time (Tr)" "s" 10),
    (0x3E, make_value "LF2 Maximum Trip Time (MTT)" "s" 100),
    (0x3F, make_value "HF2 Maximum Trip Time (MTT)" "s" 100),
    (0x40, make_value "Short Interruption Reconnect Time (SRT)" "s" 10),
    (0x41, make_value "Short Interruption Time (SIT)" "s" 10),
    (0xFF, make_value "Unknown Value" "" 1) ]

/-- Modelled from the spec: the decoder's value computation, which the source
file does not contain.  The spec gives it as `value = raw / divider`, a
physical value (`2300` with divider `10` is `230.0`), so the quotient is taken
in the rationals. -/
def physicalValue (raw : Int) (d : GridProfileItemDefinition_t) : ℚ :=
  (raw : ℚ) / (d.Divider : ℚ)

/-- Modelled from the spec: the first-match linear scan of the Profile-Type
table for a byte pair, which the source file does not contain (it holds only
the array).  The rows are visited in array order and the first one whose
`lIdx` and `hIdx` both equal the given bytes is the match. -/
def findProfileType : List ProfileType_t → Nat → Nat → Option ProfileType_t
  | [], _, _ => none
  | ptype :: rest, l, h =>
      if ptype.lIdx = l ∧ ptype.hIdx = h then some ptype else findProfileType rest l h

/-- Modelled from the spec: the explicit "unknown" entry of the Profile-Type
table that resolution falls back to.  The array has one such row, named
`"XX - unknown"`. -/
def unknownProfileType : ProfileType_t := ⟨0x03, 0x01, "XX - unknown"⟩

/-- Modelled from the spec: profile resolution, which the source file does not
contain: "resolved profile name (falls back to an explicit "unknown" entry if
the byte pair has no table match)". -/
def resolveProfileType (l h : Nat) : ProfileType_t :=
  match findProfileType profileTypes l h with
  | some ptype => ptype
  | none => unknownProfileType

/-- The member `GridProfileParser::parse`, as the text it writes to
`std::cout`: the lookup `profileSection.at(0x00)` sits in a `try` block whose
success path prints the name after "Profile Name: ", and whose
`catch (const std::out_of_range&)` path prints "Profile not found.". -/
def parse : String :=
  match map_at profileSection 0x00 with
  | Except.ok profileName => "Profile Name: " ++ profileName ++ "\n"
  | Except.error _ => "Profile not found." ++ "\n"

end GridProfileParser

/-! ## `ThreadSafeQueue<T>`

Every member runs under the queue's mutex, so calls are serialised; a queue
state is the content of the underlying `std::queue`, oldest item first. -/

/-- The class `ThreadSafeQueue<T>`: the field `_queue`. -/
structure ThreadSafeQueue (T : Type) where
  _queue : List T
  deriving DecidableEq, Repr

namespace ThreadSafeQueue

variable {T : Type}

/-- The default constructor: an empty queue. -/
def empty : ThreadSafeQueue T := ⟨[]⟩

/-- The member `size`. -/
def size (q : ThreadSafeQueue T) : Nat := q._queue.length

/-- The member `pop`: an empty optional on an empty queue, which stays as it
is; otherwise the front item, which is removed. -/
def pop (q : ThreadSafeQueue T) : Option T × ThreadSafeQueue T :=
  match q._queue with
  | [] => (none, q)
  | tmp :: rest => (some tmp, ⟨rest⟩)

/-- The member `push`: `std::queue::push` appends at the back. -/
def push (q : ThreadSafeQueue T) (item : T) : ThreadSafeQueue T :=
  ⟨q._queue ++ [item]⟩

/-- Push the items of a list one after the other, first item first. -/
def pushAll (q : ThreadSafeQueue T) (items : List T) : ThreadSafeQueue T :=
  items.foldl push q

/-- Call `pop` the given number of times; the results are listed in call
order, next to the queue left behind. -/
def popN : Nat → ThreadSafeQueue T → List (Option T) × ThreadSafeQueue T
  | 0, q => ([], q)
  | n + 1, q =>
      let r := q.pop
      let rs := popN n r.2
      (r.1 :: rs.1, rs.2)

end ThreadSafeQueue

/-- The member `HoymilesRadio::enqueCommand` on the field `_commandQueue`. -/
def HoymilesRadio.enqueCommand {T : Type} (_commandQueue : ThreadSafeQueue T) (cmd : T) :
    ThreadSafeQueue T :=
  _commandQueue.push cmd

/-! ## `TimeoutHelper`

`getCurrentMillis` is declared without a body; every member that reads the
clock takes the reading as the argument `now`. -/

/-- The width of `uint32_t` arithmetic. -/
def UINT32_MOD : Nat := 4294967296

/-- The class `TimeoutHelper`: the fields `startMillis` and `timeout`. -/
structure TimeoutHelper where
  startMillis : Nat
  timeout : Nat
  deriving DecidableEq, Repr

namespace TimeoutHelper

/-- The constructor: `startMillis(0), timeout(0)`. -/
def new : TimeoutHelper := ⟨0, 0⟩

/-- The member `set`: `timeout = ms; startMillis = getCurrentMillis();`. -/
def set (_h : TimeoutHelper) (now ms : Nat) : TimeoutHelper :=
  { timeout := ms, startMillis := now }

/-- The member `extend`: `timeout += ms;` in `uint32_t`. -/
def extend (h : TimeoutHelper) (ms : Nat) : TimeoutHelper :=
  { h with timeout := (h.timeout + ms) % UINT32_MOD }

/-- The member `reset`: `startMillis = getCurrentMillis();`. -/
def reset (h : TimeoutHelper) (now : Nat) : TimeoutHelper :=
  { h with startMillis := now }

/-- The member `occured`: `(getCurrentMillis() - startMillis) >= timeout`, the
difference taken in `uint32_t`. -/
def occured (h : TimeoutHelper) (now : Nat) : Bool :=
  decide ((now + (UINT32_MOD - h.startMillis % UINT32_MOD)) % UINT32_MOD ≥ h.timeout)

/-- Both fields fit `uint32_t`. -/
def WF (h : TimeoutHelper) : Prop :=
  h.startMillis < UINT32_MOD ∧ h.timeout < UINT32_MOD

end TimeoutHelper

/-! ## `HoymilesRadio_CMT`: channel grid -/

/-- The constant `CMT2300A_ONE_STEP_SIZE`. -/
def CMT2300A_ONE_STEP_SIZE : Nat := 2500

/-- The constant `FH_OFFSET`. -/
def FH_OFFSET : Nat := 100

/-- The constant `CMT_BASE_FREQ_900`. -/
def CMT_BASE_FREQ_900 : Nat := 900000000

/-- The constant `CMT_BASE_FREQ_860`. -/
def CMT_BASE_FREQ_860 : Nat := 860000000

namespace HoymilesRadio_CMT

/-- The static member `getChannelWidth`: `FH_OFFSET * CMT2300A_ONE_STEP_SIZE`,
returned as `uint32_t`. -/
def getChannelWidth : Nat := (FH_OFFSET * CMT2300A_ONE_STEP_SIZE) % UINT32_MOD

/-- Modelled from the spec: `getFrequencyFromChannel`, declared in the header
without a body.  The spec gives `frequency = band_base + channel × channel_width`;
the channel is a `uint8_t`, the sum a `uint32_t`.  The band base is what
`getBaseFrequency` of the radio returns. -/
def getFrequencyFromChannel (base channel : Nat) : Nat :=
  (base + (channel % 256) * getChannelWidth) % UINT32_MOD

/-- Modelled from the spec: `getChannelFromFrequency`, declared in the header
without a body.  The inverse conversion with the fixed channel width, where
"rounding favors the nearest lower channel boundary": the offset from the band
base, in `uint32_t`, divided by the width and narrowed to `uint8_t`. -/
def getChannelFromFrequency (base frequency : Nat) : Nat :=
  (((frequency + (UINT32_MOD - base % UINT32_MOD)) % UINT32_MOD) / getChannelWidth) % 256

end HoymilesRadio_CMT

/-! ## Lookup lemmas -/

namespace GridProfileParser

/-- A key that no pair of the table carries makes `map_at` throw. -/
theorem map_at_error_of_not_key {Key Value : Type} [DecidableEq Key]
    (items : List (Key × Value)) (key : Key) (hkey : ∀ item ∈ items, item.1 ≠ key) :
    map_at items key = Except.error "Key not found" := by
  induction items with
  | nil => rfl
  | cons item rest ih =>
      have hhead : item.1 ≠ key := hkey item (List.mem_cons_self item rest)
      have htail : ∀ it ∈ rest, it.1 ≠ key := fun it hit =>
        hkey it (List.mem_cons_of_mem item hit)
      simp only [map_at, if_neg hhead]
      exact ih htail

/-- A byte pair that no row carries makes the scan of the profile types come
back empty. -/
theorem findProfileType_none_of_no_row (rows : List ProfileType_t) (l h : Nat)
    (hrow : ∀ p ∈ rows, ¬ (p.lIdx = l ∧ p.hIdx = h)) :
    findProfileType rows l h = none := by
  induction rows with
  | nil => rfl
  | cons p rest ih =>
      have hhead : ¬ (p.lIdx = l ∧ p.hIdx = h) := hrow p (List.mem_cons_self p rest)
      have htail : ∀ q ∈ rest, ¬ (q.lIdx = l ∧ q.hIdx = h) := fun q hq =>
        hrow q (List.mem_cons_of_mem p hq)
      simp only [findProfileType, if_neg hhead]
      exact ih htail

/-! ## Item lookup -/

/-- C1: looking up item id `0x01` in `itemDefinitions` with `map::at` returns
the definition named "Nominale Voltage (NV)" with unit "V" and divider 10, so
for every raw integer `r` the decoded physical value is exactly `r / 10`; raw
`2300` decodes to `230`. -/
theorem itemDefinitions_at_nominal_voltage :
    ∃ d : GridProfileItemDefinition_t,
      map_at itemDefinitions 0x01 = Except.ok d ∧
      d.Name = "Nominale Voltage (NV)" ∧ d.Unit = "V" ∧ d.Divider = 10 ∧
      (∀ r : Int, physicalValue r d = (r : ℚ) / 10) ∧
      physicalValue 2300 d = 230 := by
  refine ⟨make_value "Nominale Voltage (NV)" "V" 10, rfl, rfl, rfl, rfl, ?_, ?_⟩
  · intro r
    simp [physicalValue, make_value]
  · simp only [physicalValue, make_value]
    norm_num

/-- C2, as the spec states it, fails at item id `0x99`: the id is not a key of
`itemDefinitions`, and `map::at` throws instead of returning the fallback
definition. -/
theorem itemDefinitions_at_0x99_throws :
    (itemDefinitions.map Prod.fst).contains 0x99 = false ∧
    map_at itemDefinitions 0x99 = Except.error "Key not found" :=
  ⟨by decide, rfl⟩

/-- C2 (amended): for every item id that is not a key of `itemDefinitions`,
`map::at` throws `out_of_range` and returns no definition; the definition named
"Unknown Value" with divider 1 is what the lookup of its own key `0xFF`
returns, and with it the decoded value equals the raw input. -/
theorem itemDefinitions_at_unknown_id (id : Nat)
    (hid : ∀ item ∈ itemDefinitions, item.1 ≠ id) :
    map_at itemDefinitions id = Except.error "Key not found" ∧
    map_at itemDefinitions 0xFF = Except.ok (make_value "Unknown Value" "" 1) ∧
    ∀ r : Int, physicalValue r (make_value "Unknown Value" "" 1) = (r : ℚ) := by
  refine ⟨map_at_error_of_not_key itemDefinitions id hid, rfl, ?_⟩
  intro r
  simp [physicalValue, make_value]

/-- C2 (amended) at item id `0x99`. -/
theorem itemDefinitions_at_unknown_id_witness :
    (∀ item ∈ itemDefinitions, item.1 ≠ 0x99) ∧
    map_at itemDefinitions 0x99 = Except.error "Key not found" :=
  ⟨by decide, (itemDefinitions_at_unknown_id 0x99 (by decide)).1⟩

/-! ## Profile types -/

/-- C3: the first-match scan of `profileTypes` for the byte pair `(0x03, 0x00)`
finds a row, and that row is the DE profile "DE - DE_VDE4105_2018", not the
neighbouring `(0x03, 0x01)` row "XX - unknown". -/
theorem findProfileType_DE :
    findProfileType profileTypes 0x03 0x00 = some ⟨0x03, 0x00, "DE - DE_VDE4105_2018"⟩ ∧
    findProfileType profileTypes 0x03 0x00 ≠ some ⟨0x03, 0x01, "XX - unknown"⟩ := by
  constructor
  · rfl
  · decide

/-- C4: for every byte pair that matches no `(lIdx, hIdx)` row of
`profileTypes`, profile resolution yields the explicit unknown entry, a row of
the table whose name is "XX - unknown". -/
theorem resolveProfileType_no_match (l h : Nat)
    (hrow : ∀ p ∈ profileTypes, ¬ (p.lIdx = l ∧ p.hIdx = h)) :
    resolveProfileType l h = unknownProfileType ∧
    unknownProfileType ∈ profileTypes ∧
    (resolveProfileType l h).Name = "XX - unknown" := by
  have hres : resolveProfileType l h = unknownProfileType := by
    simp only [resolveProfileType, findProfileType_none_of_no_row profileTypes l h hrow]
  refine ⟨hres, by decide, ?_⟩
  rw [hres]
  rfl

/-- C4 at the byte pair `(0xFF, 0xFF)`, which matches no row. -/
theorem resolveProfileType_no_match_witness :
    (∀ p ∈ profileTypes, ¬ (p.lIdx = 0xFF ∧ p.hIdx = 0xFF)) ∧
    resolveProfileType 0xFF 0xFF = unknownProfileType ∧
    (resolveProfileType 0xFF 0xFF).Name = "XX - unknown" :=
  ⟨by decide, (resolveProfileType_no_match 0xFF 0xFF (by decide)).1,
    (resolveProfileType_no_match 0xFF 0xFF (by decide)).2.2⟩

end GridProfileParser

/-! ## Queue lemmas -/

namespace ThreadSafeQueue

variable {T : Type}

/-- Pushing a list of items appends the list to the content. -/
theorem pushAll_queue (items : List T) (q : ThreadSafeQueue T) :
    (q.pushAll items)._queue = q._queue ++ items := by
  induction items generalizing q with
  | nil => simp [pushAll]
  | cons x rest ih =>
      have hstep : q.pushAll (x :: rest) = (q.push x).pushAll rest := rfl
      rw [hstep, ih (q.push x)]
      simp [push]

/-- Popping as many times as the queue holds items hands the content out in
order and empties the queue. -/
theorem popN_length (content : List T) :
    popN content.length (⟨content⟩ : ThreadSafeQueue T) = (content.map some, ⟨[]⟩) := by
  induction content with
  | nil => rfl
  | cons x rest ih =>
      simp only [List.length_cons, popN, pop, List.map_cons]
      rw [ih]

/-- C5: the queue is first-in first-out.  For every list of items pushed in
order onto an empty queue, as repeated `enqueCommand` does, the same number of
`pop` calls returns exactly those items in push order, each as a present
optional, and leaves the queue empty. -/
theorem fifo (items : List T) :
    items.foldl HoymilesRadio.enqueCommand (empty : ThreadSafeQueue T) = pushAll empty items ∧
    popN items.length (pushAll empty items) = (items.map some, empty) ∧
    (popN items.length (pushAll empty items)).2.size = 0 := by
  have hq : (pushAll empty items : ThreadSafeQueue T) = ⟨items⟩ := by
    have h := pushAll_queue items (empty : ThreadSafeQueue T)
    cases hp : (pushAll empty items : ThreadSafeQueue T) with
    | mk content =>
        rw [hp] at h
        simp only [empty, List.nil_append] at h
        rw [h]
  refine ⟨rfl, ?_, ?_⟩
  · rw [hq, popN_length]
    rfl
  · rw [hq, popN_length]
    rfl

end ThreadSafeQueue

/-! ## Timeout tracker -/

namespace TimeoutHelper

/-- What `occured` computes, as a statement about integers: the elapsed time
modulo `2 ^ 32` has reached the duration. -/
theorem occured_iff (h : TimeoutHelper) (now : Nat) :
    h.occured now = true ↔
      ((now : Int) - (h.startMillis : Int)) % 2 ^ 32 ≥ (h.timeout : Int) := by
  simp only [occured, UINT32_MOD, decide_eq_true_eq]
  omega

/-- C6: after `set(ms)` at clock reading `t0`, `occured()` at clock reading `t`
is true if and only if `(t - t0) mod 2 ^ 32 >= ms`; so for every true elapsed
time `d < 2 ^ 32`, at the wrapped reading `(t0 + d) mod 2 ^ 32`, `occured()` is
true exactly when `d >= ms`. -/
theorem occured_after_set (h : TimeoutHelper) (t0 ms : Nat) :
    (∀ t : Nat, (h.set t0 ms).occured t = true ↔
      ((t : Int) - (t0 : Int)) % 2 ^ 32 ≥ (ms : Int)) ∧
    (∀ d : Nat, d < 2 ^ 32 →
      ((h.set t0 ms).occured ((t0 + d) % 2 ^ 32) = true ↔ d ≥ ms)) := by
  constructor
  · intro t
    exact occured_iff (h.set t0 ms) t
  · intro d hd
    simp only [occured, set, UINT32_MOD, decide_eq_true_eq]
    omega

/-- C6 on a wrapping clock: set for 1000 ms at reading `2 ^ 32 - 10`, the
timeout has occurred 1000 ms later, at the wrapped reading 990, and has not
occurred 999 ms later, at the wrapped reading 989. -/
theorem occured_after_set_witness :
    (1000 : Nat) < 2 ^ 32 ∧ (4294967286 + 1000) % 2 ^ 32 = 990 ∧
    ((TimeoutHelper.new.set 4294967286 1000).occured ((4294967286 + 1000) % 2 ^ 32) = true
      ↔ 1000 ≥ 1000) ∧
    ((TimeoutHelper.new.set 4294967286 1000).occured ((4294967286 + 999) % 2 ^ 32) = true
      ↔ 999 ≥ 1000) :=
  ⟨by norm_num, by norm_num,
    (occured_after_set TimeoutHelper.new 4294967286 1000).2 1000 (by norm_num),
    (occured_after_set TimeoutHelper.new 4294967286 1000).2 999 (by norm_num)⟩

/-- The state after `set` and a run of `reset` calls: the duration is the one
set, the start is the reading of the last `reset`. -/
theorem reset_run (h : TimeoutHelper) (ts : List Nat) (t1 : Nat) :
    (ts ++ [t1]).foldl reset h = ⟨t1, h.timeout⟩ := by
  induction ts generalizing h with
  | nil => rfl
  | cons t rest ih =>
      simp only [List.cons_append, List.foldl_cons]
      rw [ih (h.reset t)]
      rfl

/-- C9: `reset()` moves the start of the window to the current clock reading
and leaves the duration unchanged; after `set(ms)` followed by any run of
`reset()` calls, the last at reading `t1`, `occured()` at reading `t` is true if
and only if `(t - t1) mod 2 ^ 32 >= ms`. -/
theorem occured_after_reset (h : TimeoutHelper) (t0 ms : Nat) (ts : List Nat) (t1 : Nat) :
    (∀ (g : TimeoutHelper) (now : Nat),
      (g.reset now).startMillis = now ∧ (g.reset now).timeout = g.timeout) ∧
    ((ts ++ [t1]).foldl reset (h.set t0 ms)).timeout = ms ∧
    ((ts ++ [t1]).foldl reset (h.set t0 ms)).startMillis = t1 ∧
    (∀ t : Nat, ((ts ++ [t1]).foldl reset (h.set t0 ms)).occured t = true ↔
      ((t : Int) - (t1 : Int)) % 2 ^ 32 ≥ (ms : Int)) := by
  rw [reset_run]
  refine ⟨fun g now => ⟨rfl, rfl⟩, rfl, rfl, ?_⟩
  intro t
  exact occured_iff ⟨t1, (h.set t0 ms).timeout⟩ t

end TimeoutHelper

/-! ## Channel grid -/

namespace HoymilesRadio_CMT

/-- C8: `getChannelWidth()` is the constant
`FH_OFFSET * CMT2300A_ONE_STEP_SIZE = 100 * 2500 = 250000` Hz; it takes no
argument and reads no state, and the product overflows neither `uint32_t` nor
a 32-bit `int`. -/
theorem getChannelWidth_eq :
    getChannelWidth = 250000 ∧
    getChannelWidth = FH_OFFSET * CMT2300A_ONE_STEP_SIZE ∧
    FH_OFFSET = 100 ∧ CMT2300A_ONE_STEP_SIZE = 2500 ∧
    FH_OFFSET * CMT2300A_ONE_STEP_SIZE < 2 ^ 31 ∧
    FH_OFFSET * CMT2300A_ONE_STEP_SIZE < 2 ^ 32 := by
  decide

/-- C7: `getChannelFromFrequency (getFrequencyFromChannel c) = c` for every
8-bit channel `c` and every band base, hence for every channel within a
profile's legal range, with `frequency = base + c * getChannelWidth()` in
32-bit arithmetic. -/
theorem channel_roundtrip (base c : Nat) (hc : c < 256) :
    getChannelFromFrequency base (getFrequencyFromChannel base c) = c := by
  have hw : getChannelWidth = 250000 := by decide
  have hbyte : c % 256 = c := Nat.mod_eq_of_lt hc
  have hoff : ((base + c * 250000) % 4294967296 + (4294967296 - base % 4294967296))
      % 4294967296 = c * 250000 := by omega
  simp only [getChannelFromFrequency, getFrequencyFromChannel, hw, UINT32_MOD, hbyte, hoff]
  rw [Nat.mul_div_cancel c (by norm_num : 0 < 250000)]
  exact hbyte

/-- C7 at channel 20 of the 860 MHz band: 865 MHz and back. -/
theorem channel_roundtrip_witness :
    (20 : Nat) < 256 ∧ getFrequencyFromChannel CMT_BASE_FREQ_860 20 = 865000000 ∧
    getChannelFromFrequency CMT_BASE_FREQ_860 (getFrequencyFromChannel CMT_BASE_FREQ_860 20) = 20 :=
  ⟨by decide, by decide, channel_roundtrip CMT_BASE_FREQ_860 20 (by decide)⟩

end HoymilesRadio_CMT

/-! ## Coverage of the item table -/

namespace GridProfileParser

/-- C10: `itemDefinitions` has exactly 66 (`0x42`) rows, its keys are the
contiguous ids `0x01 .. 0x41` followed by `0xFF`, and for every item id `i`
with `0x01 <= i <= 0x41` the lookup `itemDefinitions.at(i)` returns a
definition instead of throwing. -/
theorem itemDefinitions_covers_ids :
    itemDefinitions.length = 0x42 ∧
    itemDefinitions.map Prod.fst = List.range' 0x01 0x41 ++ [0xFF] ∧
    ∀ i : Nat, 0x01 ≤ i → i ≤ 0x41 →
      ∃ d : GridProfileItemDefinition_t, map_at itemDefinitions i = Except.ok d := by
  refine ⟨rfl, by decide, ?_⟩
  intro i hlo hhi
  interval_cases i <;> exact ⟨_, rfl⟩

/-- C10 at the last id of the range, `0x41`. -/
theorem itemDefinitions_covers_ids_witness :
    (0x01 ≤ 0x41 ∧ 0x41 ≤ 0x41) ∧
    ∃ d : GridProfileItemDefinition_t, map_at itemDefinitions 0x41 = Except.ok d :=
  ⟨by decide, itemDefinitions_covers_ids.2.2 0x41 (by decide) (by decide)⟩

end GridProfileParser

/-! ## Sections, dividers and key uniqueness -/

namespace GridProfileParser

/-- A definition that `map_at` returns is the value of a row with that key. -/
theorem map_at_ok_mem {Key Value : Type} [DecidableEq Key]
    (items : List (Key × Value)) (key : Key) (v : Value)
    (hv : map_at items key = Except.ok v) : (key, v) ∈ items := by
  induction items with
  | nil => simp [map_at] at hv
  | cons item rest ih =>
      by_cases hk : item.1 = key
      · simp only [map_at, if_pos hk] at hv
        have hval : item.2 = v := by injection hv
        have hitem : item = (key, v) := Prod.ext hk hval
        rw [hitem]
        exact List.mem_cons_self _ _
      · simp only [map_at, if_neg hk] at hv
        exact List.mem_cons_of_mem item (ih hv)

/-- C11: section resolution is defined exactly on the high nibbles
`0x0 .. 0xB`.  For every byte `b`, `profileSection.at(b & 0xF0)` returns a
section name if `b < 0xC0` and throws `out_of_range` if `b >= 0xC0`;
`at(0x00)` returns "Voltage (H/LVRT)", so `parse()` prints the profile name of
its success branch and not the text of its catch branch. -/
theorem profileSection_at_high_nibble :
    (∀ b : Nat, b < 256 →
      (b < 0xC0 → ∃ name : String, map_at profileSection (b &&& 0xF0) = Except.ok name) ∧
      (b ≥ 0xC0 → map_at profileSection (b &&& 0xF0) = Except.error "Key not found")) ∧
    map_at profileSection 0x00 = Except.ok "Voltage (H/LVRT)" ∧
    parse = "Profile Name: Voltage (H/LVRT)\n" ∧
    parse ≠ "Profile not found.\n" := by
  refine ⟨?_, rfl, by decide, by decide⟩
  intro b hb
  interval_cases b <;>
    first
    | exact ⟨fun _ => ⟨_, rfl⟩, fun h => absurd h (by decide)⟩
    | exact ⟨fun h => absurd h (by decide), fun _ => rfl⟩

/-- C11 at two item ids: `0x25` lies in section `0x20`, "Island Detection
(ID)", and `0xC5` has no section. -/
theorem profileSection_at_high_nibble_witness :
    ((0x25 : Nat) < 256 ∧ (0x25 : Nat) < 0xC0 ∧
      ∃ name : String, map_at profileSection (0x25 &&& 0xF0) = Except.ok name) ∧
    ((0xC5 : Nat) < 256 ∧ (0xC5 : Nat) ≥ 0xC0 ∧
      map_at profileSection (0xC5 &&& 0xF0) = Except.error "Key not found") :=
  ⟨⟨by decide, by decide,
      (profileSection_at_high_nibble.1 0x25 (by decide)).1 (by decide)⟩,
    ⟨by decide, by decide,
      (profileSection_at_high_nibble.1 0xC5 (by decide)).2 (by decide)⟩⟩

/-- C12: every row of `itemDefinitions` has a `Divider` that is 1, 10 or 100,
so it is non-zero and fits 8 bits; for any definition that
`itemDefinitions.at` returns, `value = raw / divider` divides by a non-zero
number, and multiplying the value by the divider gives the raw input back. -/
theorem itemDefinitions_divider_nonzero :
    (∀ item ∈ itemDefinitions,
      item.2.Divider = 1 ∨ item.2.Divider = 10 ∨ item.2.Divider = 100) ∧
    (∀ (id : Nat) (d : GridProfileItemDefinition_t),
      map_at itemDefinitions id = Except.ok d →
        (d.Divider = 1 ∨ d.Divider = 10 ∨ d.Divider = 100) ∧
        d.Divider ≠ 0 ∧ d.Divider < 256 ∧
        ∀ raw : Int, physicalValue raw d * (d.Divider : ℚ) = (raw : ℚ)) := by
  have hrows : ∀ item ∈ itemDefinitions,
      item.2.Divider = 1 ∨ item.2.Divider = 10 ∨ item.2.Divider = 100 := by decide
  refine ⟨hrows, ?_⟩
  intro id d hd
  have hdiv : d.Divider = 1 ∨ d.Divider = 10 ∨ d.Divider = 100 :=
    hrows (id, d) (map_at_ok_mem itemDefinitions id d hd)
  have hne : d.Divider ≠ 0 := by omega
  have hlt : d.Divider < 256 := by omega
  refine ⟨hdiv, hne, hlt, ?_⟩
  intro raw
  have hq : (d.Divider : ℚ) ≠ 0 := Nat.cast_ne_zero.mpr hne
  simp only [physicalValue]
  exact div_mul_cancel₀ (raw : ℚ) hq

/-- C12 at item id `0x07`, whose divider is 100. -/
theorem itemDefinitions_divider_nonzero_witness :
    map_at itemDefinitions 0x07 = Except.ok (make_value "LV2 Maximum Trip Time (MTT)" "s" 100) ∧
    (make_value "LV2 Maximum Trip Time (MTT)" "s" 100).Divider ≠ 0 ∧
    physicalValue 250 (make_value "LV2 Maximum Trip Time (MTT)" "s" 100) * ((100 : Nat) : ℚ)
      = ((250 : Int) : ℚ) :=
  ⟨rfl,
    (itemDefinitions_divider_nonzero.2 0x07
      (make_value "LV2 Maximum Trip Time (MTT)" "s" 100) rfl).2.1,
    (itemDefinitions_divider_nonzero.2 0x07
      (make_value "LV2 Maximum Trip Time (MTT)" "s" 100) rfl).2.2.2 250⟩

end GridProfileParser

/-! ## Queue steps -/

namespace ThreadSafeQueue

variable {T : Type}

/-- C13: `pop()` on an empty queue returns an empty optional and leaves the
queue as it is, with `size()` still 0; `pop()` on a non-empty queue returns its
oldest item, the front of the content, and decreases `size()` by exactly one;
`push()` puts the item at the back and increases `size()` by exactly one. -/
theorem pop_push_size :
    (∀ q : ThreadSafeQueue T, q.size = 0 →
      q.pop = (none, q) ∧ q.pop.2.size = 0) ∧
    (∀ q : ThreadSafeQueue T, q.size ≠ 0 →
      ∃ (oldest : T) (rest : List T), q._queue = oldest :: rest ∧
        q.pop = (some oldest, ⟨rest⟩) ∧ q.pop.2.size + 1 = q.size) ∧
    (∀ (q : ThreadSafeQueue T) (item : T),
      (q.push item)._queue = q._queue ++ [item] ∧ (q.push item).size = q.size + 1) := by
  refine ⟨?_, ?_, ?_⟩
  · intro q hq
    cases q with
    | mk content =>
        cases content with
        | nil => exact ⟨rfl, rfl⟩
        | cons x rest => simp [size] at hq
  · intro q hq
    cases q with
    | mk content =>
        cases content with
        | nil => exact absurd rfl hq
        | cons x rest => exact ⟨x, rest, rfl, rfl, rfl⟩
  · intro q item
    refine ⟨rfl, ?_⟩
    simp [size, push]

/-- C13 on queues of numbers: the empty queue, and the queue holding 7 (pushed
first), 8 and 9. -/
theorem pop_push_size_witness :
    ((empty : ThreadSafeQueue Nat).size = 0 ∧
      (empty : ThreadSafeQueue Nat).pop = (none, empty)) ∧
    ((((empty : ThreadSafeQueue Nat).push 7).push 8).push 9).size ≠ 0 ∧
    (∃ (oldest : Nat) (rest : List Nat),
      ((((empty : ThreadSafeQueue Nat).push 7).push 8).push 9)._queue = oldest :: rest ∧
      ((((empty : ThreadSafeQueue Nat).push 7).push 8).push 9).pop = (some oldest, ⟨rest⟩) ∧
      ((((empty : ThreadSafeQueue Nat).push 7).push 8).push 9).pop.2.size + 1 =
        ((((empty : ThreadSafeQueue Nat).push 7).push 8).push 9).size) ∧
    ((((empty : ThreadSafeQueue Nat).push 7).push 8).push 9).pop.1 = some 7 :=
  ⟨⟨rfl, (pop_push_size.1 empty rfl).1⟩, by decide,
    pop_push_size.2.1 ((((empty : ThreadSafeQueue Nat).push 7).push 8).push 9) (by decide),
    rfl⟩

end ThreadSafeQueue

/-! ## Distinct keys and row order -/

namespace GridProfileParser

/-- A row that the scan of the profile types returns is a row of the table and
carries the byte pair. -/
theorem findProfileType_some_mem (rows : List ProfileType_t) (l h : Nat) (p : ProfileType_t)
    (hp : findProfileType rows l h = some p) : p ∈ rows ∧ p.lIdx = l ∧ p.hIdx = h := by
  induction rows with
  | nil => simp [findProfileType] at hp
  | cons q rest ih =>
      by_cases hq : q.lIdx = l ∧ q.hIdx = h
      · simp only [findProfileType, if_pos hq] at hp
        have hqp : q = p := by injection hp
        rw [← hqp]
        exact ⟨List.mem_cons_self q rest, hq.1, hq.2⟩
      · simp only [findProfileType, if_neg hq] at hp
        have hrest := ih hp
        exact ⟨List.mem_cons_of_mem q hrest.1, hrest.2⟩

/-- When the scan throws, no row carries the key. -/
theorem map_at_error_not_key {Key Value : Type} [DecidableEq Key]
    (items : List (Key × Value)) (key : Key) (e : String)
    (he : map_at items key = Except.error e) : ∀ item ∈ items, item.1 ≠ key := by
  induction items with
  | nil => intro item hitem; cases hitem
  | cons first rest ih =>
      by_cases hk : first.1 = key
      · simp [map_at, if_pos hk] at he
      · simp only [map_at, if_neg hk] at he
        intro item hitem
        rcases List.mem_cons.mp hitem with hfirst | hrest
        · rw [hfirst]; exact hk
        · exact ih he item hrest

/-- With pairwise distinct keys, every row is what the scan returns for its
key, wherever the row stands. -/
theorem map_at_of_mem_nodup {Key Value : Type} [DecidableEq Key]
    (items : List (Key × Value)) (key : Key) (v : Value)
    (hnd : (items.map Prod.fst).Nodup) (hmem : (key, v) ∈ items) :
    map_at items key = Except.ok v := by
  induction items with
  | nil => cases hmem
  | cons first rest ih =>
      rw [List.map_cons, List.nodup_cons] at hnd
      rcases List.mem_cons.mp hmem with hfirst | hrest
      · have hk : first.1 = key := by rw [← hfirst]
        have hv : first.2 = v := by rw [← hfirst]
        simp only [map_at, if_pos hk, hv]
      · have hk : first.1 ≠ key := by
          intro hfk
          apply hnd.1
          rw [hfk]
          exact List.mem_map_of_mem Prod.fst hrest
        simp only [map_at, if_neg hk]
        exact ih hnd.2 hrest

/-- With pairwise distinct keys, the scan gives the same result on every
reordering of the rows. -/
theorem map_at_perm {Key Value : Type} [DecidableEq Key]
    (items rows : List (Key × Value)) (key : Key)
    (hnd : (items.map Prod.fst).Nodup) (hperm : rows.Perm items) :
    map_at rows key = map_at items key := by
  have hnd_rows : (rows.map Prod.fst).Nodup := ((hperm.map Prod.fst).nodup_iff).mpr hnd
  cases hres : map_at items key with
  | error e =>
      have hno := map_at_error_not_key items key e hres
      have herr := map_at_error_of_not_key items key hno
      rw [hres] at herr
      rw [herr]
      exact map_at_error_of_not_key rows key (fun item hitem => hno item (hperm.mem_iff.mp hitem))
  | ok v =>
      exact map_at_of_mem_nodup rows key v hnd_rows
        (hperm.mem_iff.mpr (map_at_ok_mem items key v hres))

/-- When the scan of the profile types comes back empty, no row carries the
byte pair. -/
theorem findProfileType_none_no_row (rows : List ProfileType_t) (l h : Nat)
    (hnone : findProfileType rows l h = none) :
    ∀ p ∈ rows, ¬ (p.lIdx = l ∧ p.hIdx = h) := by
  induction rows with
  | nil => intro p hp; cases hp
  | cons q rest ih =>
      by_cases hq : q.lIdx = l ∧ q.hIdx = h
      · simp [findProfileType, if_pos hq] at hnone
      · simp only [findProfileType, if_neg hq] at hnone
        intro p hp
        rcases List.mem_cons.mp hp with hfirst | hrest
        · rw [hfirst]; exact hq
        · exact ih hnone p hrest

/-- With pairwise distinct byte pairs, every row is what the scan of the
profile types returns for its pair. -/
theorem findProfileType_of_mem_nodup (rows : List ProfileType_t) (p : ProfileType_t)
    (hnd : (rows.map (fun r => (r.lIdx, r.hIdx))).Nodup) (hmem : p ∈ rows) :
    findProfileType rows p.lIdx p.hIdx = some p := by
  induction rows with
  | nil => cases hmem
  | cons q rest ih =>
      rw [List.map_cons, List.nodup_cons] at hnd
      rcases List.mem_cons.mp hmem with hfirst | hrest
      · have hq : q.lIdx = p.lIdx ∧ q.hIdx = p.hIdx := by rw [hfirst]; exact ⟨rfl, rfl⟩
        simp only [findProfileType, if_pos hq]
        rw [hfirst]
      · have hq : ¬ (q.lIdx = p.lIdx ∧ q.hIdx = p.hIdx) := by
          intro hqp
          apply hnd.1
          have hkey : (q.lIdx, q.hIdx) = (p.lIdx, p.hIdx) := by rw [hqp.1, hqp.2]
          rw [hkey]
          exact List.mem_map_of_mem (fun r => (r.lIdx, r.hIdx)) hrest
        simp only [findProfileType, if_neg hq]
        exact ih hnd.2 hrest

/-- With pairwise distinct byte pairs, the scan of the profile types gives the
same result on every reordering of the rows. -/
theorem findProfileType_perm (items rows : List ProfileType_t) (l h : Nat)
    (hnd : (items.map (fun r => (r.lIdx, r.hIdx))).Nodup) (hperm : rows.Perm items) :
    findProfileType rows l h = findProfileType items l h := by
  have hnd_rows : (rows.map (fun r => (r.lIdx, r.hIdx))).Nodup :=
    ((hperm.map (fun r => (r.lIdx, r.hIdx))).nodup_iff).mpr hnd
  cases hres : findProfileType items l h with
  | none =>
      have hno := findProfileType_none_no_row items l h hres
      exact findProfileType_none_of_no_row rows l h
        (fun p hp => hno p (hperm.mem_iff.mp hp))
  | some p =>
      have hp := findProfileType_some_mem items l h p hres
      have hfound := findProfileType_of_mem_nodup rows p hnd_rows (hperm.mem_iff.mpr hp.1)
      rw [hp.2.1, hp.2.2] at hfound
      exact hfound

/-- C14: in each of the three static tables the lookup keys are pairwise
distinct: the 66 item ids of `itemDefinitions`, the 12 section ids of
`profileSection`, the 10 `(lIdx, hIdx)` pairs of `profileTypes`.  So the
first-match scan returns a value exactly when the table has that row under the
key, and it returns the same on every reordering of the rows. -/
theorem table_keys_distinct :
    (itemDefinitions.length = 66 ∧ (itemDefinitions.map Prod.fst).Nodup) ∧
    (profileSection.length = 12 ∧ (profileSection.map Prod.fst).Nodup) ∧
    (profileTypes.length = 10 ∧ (profileTypes.map (fun r => (r.lIdx, r.hIdx))).Nodup) ∧
    (∀ (id : Nat) (d : GridProfileItemDefinition_t),
      map_at itemDefinitions id = Except.ok d ↔ (id, d) ∈ itemDefinitions) ∧
    (∀ (id : Nat) (name : String),
      map_at profileSection id = Except.ok name ↔ (id, name) ∈ profileSection) ∧
    (∀ (l h : Nat) (p : ProfileType_t),
      findProfileType profileTypes l h = some p ↔
        p ∈ profileTypes ∧ p.lIdx = l ∧ p.hIdx = h) ∧
    (∀ rows : List (Nat × GridProfileItemDefinition_t), rows.Perm itemDefinitions →
      ∀ id : Nat, map_at rows id = map_at itemDefinitions id) ∧
    (∀ rows : List (Nat × String), rows.Perm profileSection →
      ∀ id : Nat, map_at rows id = map_at profileSection id) ∧
    (∀ rows : List ProfileType_t, rows.Perm profileTypes →
      ∀ l h : Nat, findProfileType rows l h = findProfileType profileTypes l h) := by
  have hitems : (itemDefinitions.map Prod.fst).Nodup := by decide
  have hsections : (profileSection.map Prod.fst).Nodup := by decide
  have htypes : (profileTypes.map (fun r => (r.lIdx, r.hIdx))).Nodup := by decide
  refine ⟨⟨rfl, hitems⟩, ⟨rfl, hsections⟩, ⟨rfl, htypes⟩, ?_, ?_, ?_, ?_, ?_, ?_⟩
  · intro id d
    exact ⟨map_at_ok_mem itemDefinitions id d, map_at_of_mem_nodup itemDefinitions id d hitems⟩
  · intro id name
    exact ⟨map_at_ok_mem profileSection id name,
      map_at_of_mem_nodup profileSection id name hsections⟩
  · intro l h p
    constructor
    · exact findProfileType_some_mem profileTypes l h p
    · intro hp
      have hfound := findProfileType_of_mem_nodup profileTypes p htypes hp.1
      rw [hp.2.1, hp.2.2] at hfound
      exact hfound
  · intro rows hperm id
    exact map_at_perm itemDefinitions rows id hitems hperm
  · intro rows hperm id
    exact map_at_perm profileSection rows id hsections hperm
  · intro rows hperm l h
    exact findProfileType_perm profileTypes rows l h htypes hperm

/-- C14 on the rows in reverse order: the lookups of section `0x30`, of item
`0x16` and of the profile pair `(0x03, 0x01)` return what they return on the
tables as written. -/
theorem table_keys_distinct_witness :
    (profileSection.reverse.Perm profileSection ∧
      map_at profileSection.reverse 0x30 = Except.ok "Reconnection (RT)") ∧
    (itemDefinitions.reverse.Perm itemDefinitions ∧
      map_at itemDefinitions.reverse 0x16 = map_at itemDefinitions 0x16) ∧
    (profileTypes.reverse.Perm profileTypes ∧
      findProfileType profileTypes.reverse 0x03 0x01 = findProfileType profileTypes 0x03 0x01) :=
  ⟨⟨List.reverse_perm profileSection,
      (table_keys_distinct.2.2.2.2.2.2.2.1 profileSection.reverse
        (List.reverse_perm profileSection) 0x30).trans rfl⟩,
    ⟨List.reverse_perm itemDefinitions,
      table_keys_distinct.2.2.2.2.2.2.1 itemDefinitions.reverse
        (List.reverse_perm itemDefinitions) 0x16⟩,
    ⟨List.reverse_perm profileTypes,
      table_keys_distinct.2.2.2.2.2.2.2.2 profileTypes.reverse
        (List.reverse_perm profileTypes) 0x03 0x01⟩⟩

end GridProfileParser

/-! ## Extending and restarting the timeout -/

namespace TimeoutHelper

/-- C15, as the spec states it, fails when the sum wraps: a tracker set to
`2 ^ 32 - 1` ms at reading 0 has not occurred at reading 5, and after
`extend(1)` the duration is 0 and the timeout has occurred at reading 5. -/
theorem extend_wraps_and_fires :
    (TimeoutHelper.new.set 0 4294967295).occured 5 = false ∧
    ((TimeoutHelper.new.set 0 4294967295).extend 1).timeout = 0 ∧
    ((TimeoutHelper.new.set 0 4294967295).extend 1).occured 5 = true := by
  decide

/-- C15 (amended): for every tracker state and every `ms`, `extend(ms)`
changes the duration to `timeout + ms` in 32-bit arithmetic and leaves the
start time as it is.  When `timeout + ms` does not wrap, `extend(ms)` does not
make a running timeout fire earlier: if `occured()` is false at reading `t`
before `extend(ms)`, it is still false at `t` after it. -/
theorem extend_keeps_running :
    (∀ (h : TimeoutHelper) (ms : Nat),
      (h.extend ms).timeout = (h.timeout + ms) % 2 ^ 32 ∧
      (h.extend ms).startMillis = h.startMillis) ∧
    (∀ (h : TimeoutHelper) (ms t : Nat),
      h.timeout + ms < 2 ^ 32 → h.occured t = false →
        (h.extend ms).occured t = false) := by
  refine ⟨fun h ms => ⟨rfl, rfl⟩, ?_⟩
  intro h ms t hsum hrun
  simp only [occured, extend, UINT32_MOD, decide_eq_false_iff_not] at hrun ⊢
  omega

/-- C15 (amended) on a tracker set to 1000 ms at reading 100, extended by 500
ms and read at 600; and the duration and start of a tracker set to
`2 ^ 32 - 1` ms at reading 7 and extended by 1 ms, where the sum wraps. -/
theorem extend_keeps_running_witness :
    (TimeoutHelper.new.set 100 1000).timeout + 500 < 2 ^ 32 ∧
    (TimeoutHelper.new.set 100 1000).occured 600 = false ∧
    ((TimeoutHelper.new.set 100 1000).extend 500).occured 600 = false ∧
    ((TimeoutHelper.new.set 100 1000).extend 500).timeout = (1000 + 500) % 2 ^ 32 ∧
    ((TimeoutHelper.new.set 7 4294967295).extend 1).timeout = (4294967295 + 1) % 2 ^ 32 ∧
    ((TimeoutHelper.new.set 7 4294967295).extend 1).startMillis = 7 :=
  ⟨by decide, by decide,
    extend_keeps_running.2 (TimeoutHelper.new.set 100 1000) 500 600 (by decide) (by decide),
    (extend_keeps_running.1 (TimeoutHelper.new.set 100 1000) 500).1,
    (extend_keeps_running.1 (TimeoutHelper.new.set 7 4294967295) 1).1,
    (extend_keeps_running.1 (TimeoutHelper.new.set 7 4294967295) 1).2⟩

/-- C16: a default-constructed tracker (start 0, duration 0), and any tracker
after `set(0)`, reports `occured()` true at every clock reading; for every
`ms > 0`, `occured()` is false at the very reading at which `set(ms)` was
called, and at the reading of the last of any run of `reset()` calls that
follows it. -/
theorem occured_zero_and_fresh :
    (TimeoutHelper.new.startMillis = 0 ∧ TimeoutHelper.new.timeout = 0) ∧
    (∀ t : Nat, TimeoutHelper.new.occured t = true) ∧
    (∀ (h : TimeoutHelper) (t0 t : Nat), (h.set t0 0).occured t = true) ∧
    (∀ (h : TimeoutHelper) (t0 ms : Nat), ms > 0 → (h.set t0 ms).occured t0 = false) ∧
    (∀ (h : TimeoutHelper) (t0 ms : Nat) (ts : List Nat) (t1 : Nat), ms > 0 →
      ((ts ++ [t1]).foldl reset (h.set t0 ms)).occured t1 = false) := by
  refine ⟨⟨rfl, rfl⟩, ?_, ?_, ?_, ?_⟩
  · intro t
    simp [occured, TimeoutHelper.new]
  · intro h t0 t
    simp [occured, set]
  · intro h t0 ms hms
    simp only [occured, set, UINT32_MOD, decide_eq_false_iff_not]
    omega
  · intro h t0 ms ts t1 hms
    rw [reset_run]
    simp only [occured, set, UINT32_MOD, decide_eq_false_iff_not]
    omega

/-- C16 on a tracker set to 1 ms at reading 42 and restarted at reading 77. -/
theorem occured_zero_and_fresh_witness :
    (1 : Nat) > 0 ∧
    (TimeoutHelper.new.set 42 1).occured 42 = false ∧
    ((TimeoutHelper.new.set 42 1).reset 77).occured 77 = false :=
  ⟨by decide,
    occured_zero_and_fresh.2.2.2.1 TimeoutHelper.new 42 1 (by decide),
    occured_zero_and_fresh.2.2.2.2 TimeoutHelper.new 42 1 [] 77 (by decide)⟩

end TimeoutHelper
